import Mathlib

/-!
Verification of the CNCF issue tracker bot (cncf_issue_tracker.py).

The development shallowly embeds the pure logic of the program:
the HTML escaping and truncation in TelegramBot.format_issue_notification,
the lookback-window arithmetic and batching of
CNCFIssueTracker.check_all_repositories, the dedup/notify loop of
CNCFIssueTracker.check_repository, the store operations of Database
(SQLite INSERT OR IGNORE with primary key (issue_id, repository)),
and the response dispatch and payload parsing of GitHubAPI.
Strings are modelled as lists of characters so that the character-level
replacements of str.replace can be reasoned about directly.
-/

/-- Python str.replace with a single-character needle: every occurrence of
the character `c` in the subject is replaced by the string `r`; other
characters are kept.  This is exactly what
`s.replace('&', '&amp;')` etc. do in format_issue_notification (line 263). -/
def replaceChar (c : Char) (r : List Char) : List Char → List Char
  | [] => []
  | a :: s => (if a = c then r else [a]) ++ replaceChar c r s

/-- The escaping chain of format_issue_notification line 263 (and line 273
for labels): replace the ampersand first, then the angle brackets. -/
def escapeHtml (s : List Char) : List Char :=
  replaceChar '>' "&gt;".toList
    (replaceChar '<' "&lt;".toList
      (replaceChar '&' "&amp;".toList s))

/-- Character-wise escaping specification: the three markup-significant
characters map to their HTML entities, every other character to itself. -/
def escapeCharSpec (c : Char) : List Char :=
  if c = '&' then "&amp;".toList
  else if c = '<' then "&lt;".toList
  else if c = '>' then "&gt;".toList
  else [c]

/-- Rendered title of format_issue_notification (lines 263-267): the raw
title is escaped for HTML first, and the escaped text is truncated to its
first 77 characters plus "..." when its length exceeds 80. -/
def renderTitle (title : List Char) : List Char :=
  let t := escapeHtml title
  if t.length > 80 then t.take 77 ++ "...".toList else t

/-- Rendered single label of format_issue_notification (lines 273-275):
escaped, then truncated to 17 characters plus "..." when longer than 20. -/
def renderLabel (name : List Char) : List Char :=
  let safe := escapeHtml name
  if safe.length > 20 then safe.take 17 ++ "...".toList else safe

/-- Rendered label list of format_issue_notification (line 272): only the
first 6 labels are shown, each escaped and truncated. -/
def renderLabels (labels : List (List Char)) : List (List Char) :=
  (labels.take 6).map renderLabel

/-- Effective lookback window of check_all_repositories (line 310):
Python computes max(5, int(check_interval / 60) + check_buffer_minutes).
Interval and buffer are nonnegative durations, modelled as naturals;
Python's int(x / 60) coincides with floor division for nonnegative x. -/
def check_minutes (checkInterval checkBufferMinutes : Nat) : Nat :=
  max 5 (checkInterval / 60 + checkBufferMinutes)

/-- An issue as constructed by GitHubAPI._parse_issue and consumed by the
tracker (dataclass Issue, lines 92-101). -/
structure Issue where
  id : Nat
  number : Nat
  title : List Char
  url : List Char
  createdAt : List Char
  repository : String
  author : List Char
  labels : List (List Char)
deriving DecidableEq

/-- A row of the tracked_issues table (schema lines 113-121): primary key
(issue_id, repository), plus the source creation timestamp. -/
structure TrackedRecord where
  issueId : Nat
  repository : String
  createdAt : List Char
deriving DecidableEq

/-- The tracked_issues table contents, in insertion order. -/
abbrev Store := List TrackedRecord

/-- Database.is_issue_tracked (lines 126-138): point lookup on the primary
key (issue_id, repository). -/
def is_issue_tracked (s : Store) (issueId : Nat) (repository : String) : Bool :=
  s.any (fun r => r.issueId == issueId && r.repository == repository)

/-- Database.add_issue (lines 140-154): INSERT OR IGNORE on the primary
key (issue_id, repository) — the row is appended when the key is new and
the insert is silently absorbed when the key already exists. -/
def add_issue (s : Store) (i : Issue) : Store :=
  if is_issue_tracked s i.id i.repository then s
  else s ++ [⟨i.id, i.repository, i.createdAt⟩]

/-- Number of rows of the store carrying a given primary key. -/
def keyCount (s : Store) (issueId : Nat) (repository : String) : Nat :=
  (s.filter (fun r => r.issueId == issueId && r.repository == repository)).length

/-- State threaded through the loop of check_repository: the store, the
running count of newly notified issues (new_count), and the list of issues
for which a notification send was attempted, in order. -/
structure CheckState where
  store : Store
  newCount : Nat
  notified : List Issue
deriving DecidableEq

/-- One iteration of the loop in check_repository (lines 347-357): a
tracked issue is skipped; an untracked one gets a notification attempt
(sendOk models telegram send_message reporting success), and only on
success is the issue recorded into the store and counted as new. -/
def checkStep (sendOk : Issue → Bool) (st : CheckState) (issue : Issue) : CheckState :=
  if is_issue_tracked st.store issue.id issue.repository then st
  else if sendOk issue then
    { store := add_issue st.store issue
      newCount := st.newCount + 1
      notified := st.notified ++ [issue] }
  else
    { st with notified := st.notified ++ [issue] }

/-- The body of CNCFIssueTracker.check_repository (lines 344-359): fold
the per-issue step over the fetched issues in returned order. -/
def check_repository (sendOk : Issue → Bool) (store : Store) (issues : List Issue) : CheckState :=
  issues.foldl (checkStep sendOk) ⟨store, 0, []⟩

/-- Outcome of the work for one collection inside a cycle: either the
per-collection processing raises (modelling any exception out of the fetch
or the loop body, caught by the except of check_repository lines 361-363
and by the return_exceptions=True gather of lines 322-328), or the fetch
returns a list of issues. -/
inductive RepoOutcome where
  | raises
  | fetched (issues : List Issue)

/-- check_repository including its try/except (lines 341-363): a raised
exception is caught and contributes a count of zero, leaving the store as
it was; otherwise the dedup/notify loop runs. -/
def check_repository_safe (sendOk : Issue → Bool) (store : Store) (o : RepoOutcome) :
    Nat × Store :=
  match o with
  | .raises => (0, store)
  | .fetched issues =>
    let st := check_repository sendOk store issues
    (st.newCount, st.store)

/-- The accumulation of check_all_repositories (lines 309-339): integer
results of the per-collection checks are summed into new_issues_count,
exceptions contribute nothing. -/
def check_all_repositories (sendOk : Issue → Bool) (store : Store)
    (outcomes : List RepoOutcome) : Nat × Store :=
  outcomes.foldl
    (fun acc o =>
      let r := check_repository_safe sendOk acc.2 o
      (acc.1 + r.1, r.2))
    (0, store)

/-- The name field of a label object in the payload: absent, a string, or
a value of some non-string JSON type. -/
inductive NameField where
  | absent
  | str (s : List Char)
  | malformed
deriving DecidableEq

/-- A label entry of the payload: a JSON object (carrying its name field)
or any non-object value, which isinstance(lbl, dict) rejects. -/
inductive LabelEntry where
  | obj (name : NameField)
  | nonObj
deriving DecidableEq

/-- A value landing in the parsed labels list: a string, or the raw
non-string value returned unchanged by lbl.get('name', ''). -/
inductive LabelVal where
  | str (s : List Char)
  | nonString
deriving DecidableEq

/-- The label comprehension of GitHubAPI._parse_issue (line 215):
labels = [lbl.get('name', '') for lbl in labels_payload if isinstance(lbl, dict)].
Non-object entries are dropped; an object with an absent name field
yields the default empty string; a non-string name value is kept as is. -/
def parse_labels (entries : List LabelEntry) : List LabelVal :=
  entries.filterMap
    (fun e =>
      match e with
      | .obj .absent => some (.str [])
      | .obj (.str s) => some (.str s)
      | .obj .malformed => some .nonString
      | .nonObj => none)

/-- An element of the JSON array returned by the issues endpoint, with the
fields read by _parse_issue; pullRequest records the presence of a truthy
pull_request field (line 192). -/
structure IssueData where
  id : Nat
  number : Nat
  title : List Char
  htmlUrl : List Char
  createdAt : List Char
  userLogin : List Char
  labels : List LabelEntry
  pullRequest : Bool
deriving DecidableEq

/-- The issue produced by _parse_issue, with labels at payload level. -/
structure ParsedIssue where
  id : Nat
  number : Nat
  title : List Char
  url : List Char
  createdAt : List Char
  repository : String
  author : List Char
  labels : List LabelVal
deriving DecidableEq

/-- GitHubAPI._parse_issue (lines 211-227). -/
def parse_issue (d : IssueData) (repository : String) : ParsedIssue :=
  { id := d.id
    number := d.number
    title := d.title
    url := d.htmlUrl
    createdAt := d.createdAt
    repository := repository
    author := d.userLogin
    labels := parse_labels d.labels }

/-- What the network layer hands to GitHubAPI.get_recent_issues: a
response with a status code and a parsed JSON body, a timeout
(asyncio.TimeoutError), or any other transport exception. -/
inductive NetResult where
  | response (status : Nat) (body : List IssueData)
  | timeout
  | exn
deriving DecidableEq

/-- The dispatch of GitHubAPI.get_recent_issues (lines 183-209): only a
200 response is parsed (excluding pull requests); 403, 404, every other
status, a timeout, and any exception produce the empty list. -/
def get_recent_issues (repository : String) (r : NetResult) : List ParsedIssue :=
  match r with
  | .response status body =>
    if status = 200 then
      (body.filter (fun d => !d.pullRequest)).map (fun d => parse_issue d repository)
    else if status = 403 then []
    else if status = 404 then []
    else []
  | .timeout => []
  | .exn => []

/-- The batching loop of check_all_repositories (lines 313-332):
for i in range(0, len(repos), batch_size) with batch_size = max(1,
configured size), the slice repos[i : i + batch_size] forms one batch,
and the inter-batch delay runs when i + batch_size < len(repos), that is,
exactly when elements remain after the current batch.  The result is the
batch list together with the number of inter-batch delays slept. -/
def batch_loop (batchSize : Nat) : List String → List (List String) × Nat
  | [] => ([], 0)
  | r :: rs =>
    let rest := (r :: rs).drop (max 1 batchSize)
    let p := batch_loop batchSize rest
    ((r :: rs).take (max 1 batchSize) :: p.1, (if rest = [] then 0 else 1) + p.2)
termination_by l => l.length
decreasing_by
  simp only [List.length_drop, List.length_cons]
  omega

/-- TelegramBot.format_issue_notification (lines 260-286): the full
message, assembled from the rendered title, author handle, repository,
link with the issue number, and — only when the issue has labels — a
labels line of the rendered labels wrapped in code tags and joined by
", ". -/
def format_issue_notification (issue : Issue) : List Char :=
  let labelsLine :=
    if issue.labels.isEmpty then []
    else
      "\n🏷️ <b>Labels:</b> ".toList ++
        List.intercalate ", ".toList
          ((renderLabels issue.labels).map
            (fun safe => "<code>".toList ++ safe ++ "</code>".toList))
  "🆕 <b>New Issue</b>\n\n📋 <b>Title:</b> ".toList ++ renderTitle issue.title ++
    "\n👤 <b>Author:</b> @".toList ++ issue.author ++
    "\n📦 <b>Repository:</b> <code>".toList ++ issue.repository.toList ++
    "</code>\n🔗 <b>Link:</b> <a href=\"".toList ++ issue.url ++
    "\">#".toList ++ (toString issue.number).toList ++ "</a>".toList ++ labelsLine

theorem replaceChar_append (c : Char) (r s t : List Char) :
    replaceChar c r (s ++ t) = replaceChar c r s ++ replaceChar c r t := by
  induction s with
  | nil => rfl
  | cons a s ih => simp [replaceChar, ih]

theorem escapeHtml_cons (a : Char) (s : List Char) :
    escapeHtml (a :: s) = escapeHtml [a] ++ escapeHtml s := by
  have h : a :: s = [a] ++ s := rfl
  rw [escapeHtml, h, replaceChar_append, replaceChar_append, replaceChar_append]
  rfl

theorem escapeHtml_single (a : Char) : escapeHtml [a] = escapeCharSpec a := by
  by_cases h1 : a = '&'
  · subst h1; rfl
  · by_cases h2 : a = '<'
    · subst h2; rfl
    · by_cases h3 : a = '>'
      · subst h3; rfl
      · simp [escapeHtml, replaceChar, escapeCharSpec, h1, h2, h3]

/-- C3: in format_issue_notification, user-supplied text is escaped exactly
character by character: each '&', '<', '>' becomes its HTML entity, no
other character is altered, and because the ampersand replacement runs
before the angle-bracket replacements no escape is applied to the output
of another escape — the whole chain coincides with a single independent
per-character substitution (no double-escaping). -/
theorem escapeHtml_charwise (s : List Char) :
    escapeHtml s = (s.map escapeCharSpec).flatten := by
  induction s with
  | nil => rfl
  | cons a s ih =>
    rw [escapeHtml_cons, ih, List.map_cons, List.flatten_cons, escapeHtml_single]

theorem renderTitle_length_le (t : List Char) : (renderTitle t).length ≤ 80 := by
  simp only [renderTitle]
  split <;> simp_all

theorem renderLabel_length_le (n : List Char) : (renderLabel n).length ≤ 20 := by
  simp only [renderLabel]
  split <;> simp_all

theorem escapeHtml_of_plain (t : List Char) (hp : ∀ c ∈ t, escapeCharSpec c = [c]) :
    escapeHtml t = t := by
  rw [escapeHtml_charwise]
  induction t with
  | nil => rfl
  | cons a s ih =>
    rw [List.map_cons, List.flatten_cons, hp a (List.mem_cons_self a s),
      ih (fun c hc => hp c (List.mem_cons_of_mem a hc))]
    rfl

/-- C4: format_issue_notification is a pure bounded transformation: the
rendered title (measured after escaping) is truncated to its first 77
characters plus the "..." marker when longer than 80 and never exceeds 80
characters; a 90-character title of plain characters yields its first 77
characters plus the marker; at most the first 6 labels are rendered (a
list of 8 labels renders exactly 6), and each rendered label longer than
20 characters (after escaping) is truncated to 17 characters plus the
marker, never exceeding 20 characters. -/
theorem format_bounded :
    (∀ t : List Char, (escapeHtml t).length > 80 →
        renderTitle t = (escapeHtml t).take 77 ++ "...".toList) ∧
    (∀ t : List Char, (renderTitle t).length ≤ 80) ∧
    (∀ t : List Char, t.length = 90 → (∀ c ∈ t, escapeCharSpec c = [c]) →
        renderTitle t = t.take 77 ++ "...".toList) ∧
    (∀ ls : List (List Char), (renderLabels ls).length ≤ 6) ∧
    (∀ ls : List (List Char), ls.length = 8 → (renderLabels ls).length = 6) ∧
    (∀ n : List Char, (escapeHtml n).length > 20 →
        renderLabel n = (escapeHtml n).take 17 ++ "...".toList) ∧
    (∀ n : List Char, (renderLabel n).length ≤ 20) := by
  refine ⟨?_, renderTitle_length_le, ?_, ?_, ?_, ?_, renderLabel_length_le⟩
  · intro t h
    simp only [renderTitle]
    rw [if_pos h]
  · intro t h90 hp
    have he := escapeHtml_of_plain t hp
    simp only [renderTitle, he]
    rw [if_pos (by omega)]
  · intro ls
    simp only [renderLabels, List.length_map, List.length_take]
    omega
  · intro ls h
    simp only [renderLabels, List.length_map, List.length_take, h]
    decide
  · intro n h
    simp only [renderLabel]
    rw [if_pos h]

/-- C4 witness: a 90-character plain title is rendered as its first 77
characters followed by the ellipsis marker. -/
theorem format_bounded_witness :
    renderTitle (List.replicate 90 'a') =
      (List.replicate 90 'a').take 77 ++ "...".toList :=
  format_bounded.2.2.1 (List.replicate 90 'a') (by decide) (by decide)

set_option maxRecDepth 100000 in
/-- C10: escaping happens before the length check of the title, so the
80-character truncation threshold is measured on the escaped text: a raw
title of 80 ampersands (length 80, so never truncated if measured raw)
escapes to 400 characters and is truncated to the first 77 characters of
the escaped form plus the marker — 15 complete "&amp;" entities followed
by the dangling fragment "&a", splitting the 16th entity mid-sequence. -/
theorem truncation_measured_on_escaped :
    (List.replicate 80 '&').length ≤ 80 ∧
    '&' ∈ List.replicate 80 '&' ∧
    (escapeHtml (List.replicate 80 '&')).length = 400 ∧
    renderTitle (List.replicate 80 '&') =
      (escapeHtml (List.replicate 80 '&')).take 77 ++ "...".toList ∧
    (escapeHtml (List.replicate 80 '&')).take 77 =
      (List.replicate 15 "&amp;".toList).flatten ++ "&a".toList := by
  exact ⟨by decide, by decide, by decide, by decide, by decide⟩

/-- C2: the effective lookback window is max(5, interval / 60 + buffer)
minutes with integer division, hence at least 5 minutes for every
configuration; interval 180s with buffer 2min gives 5, interval 60s with
buffer 2min gives 5, interval 600s with buffer 1min gives 11, and the
division floors: interval 659s with buffer 1min also gives 11. -/
theorem check_minutes_window :
    (∀ i b : Nat, 5 ≤ check_minutes i b) ∧
    check_minutes 180 2 = 5 ∧
    check_minutes 60 2 = 5 ∧
    check_minutes 600 1 = 11 ∧
    check_minutes 659 1 = 11 :=
  ⟨fun i b => le_max_left 5 (i / 60 + b), by decide, by decide, by decide, by decide⟩

theorem keyCount_eq_zero_of_not_tracked (s : Store) (issueId : Nat) (repository : String)
    (h : is_issue_tracked s issueId repository = false) :
    keyCount s issueId repository = 0 := by
  simp only [is_issue_tracked, List.any_eq_false] at h
  simp only [keyCount, List.length_eq_zero, List.filter_eq_nil_iff]
  exact h

theorem keyCount_pos_of_tracked (s : Store) (issueId : Nat) (repository : String)
    (h : is_issue_tracked s issueId repository = true) :
    1 ≤ keyCount s issueId repository := by
  simp only [is_issue_tracked, List.any_eq_true] at h
  obtain ⟨r, hr, hp⟩ := h
  have hm : r ∈ (s.filter (fun r => r.issueId == issueId && r.repository == repository)) :=
    List.mem_filter.mpr ⟨hr, hp⟩
  have := List.length_pos.mpr (List.ne_nil_of_mem hm)
  simpa [keyCount] using this

theorem is_issue_tracked_append_self (s : Store) (issueId : Nat) (repository : String)
    (createdAt : List Char) :
    is_issue_tracked (s ++ [⟨issueId, repository, createdAt⟩]) issueId repository = true := by
  simp [is_issue_tracked, List.any_append]

theorem add_issue_of_tracked (s : Store) (i : Issue)
    (h : is_issue_tracked s i.id i.repository = true) : add_issue s i = s := by
  simp [add_issue, h]

theorem add_issue_of_not_tracked (s : Store) (i : Issue)
    (h : is_issue_tracked s i.id i.repository = false) :
    add_issue s i = s ++ [⟨i.id, i.repository, i.createdAt⟩] := by
  simp [add_issue, h]

/-- C5: store insertion is idempotent.  For every store state whose rows
respect the primary-key constraint on the item's key, inserting the same
(item id, collection) twice leaves exactly one row for that key — the
second insert is a silent no-op — and is_issue_tracked answers true after
either the first or the second call. -/
theorem add_issue_idempotent (s : Store) (i : Issue)
    (h : keyCount s i.id i.repository ≤ 1) :
    keyCount (add_issue (add_issue s i) i) i.id i.repository = 1 ∧
    add_issue (add_issue s i) i = add_issue s i ∧
    is_issue_tracked (add_issue s i) i.id i.repository = true ∧
    is_issue_tracked (add_issue (add_issue s i) i) i.id i.repository = true := by
  rcases ht : is_issue_tracked s i.id i.repository with _ | _
  · have h0 : keyCount s i.id i.repository = 0 :=
      keyCount_eq_zero_of_not_tracked s i.id i.repository ht
    have he : add_issue s i = s ++ [⟨i.id, i.repository, i.createdAt⟩] :=
      add_issue_of_not_tracked s i ht
    have htr : is_issue_tracked (add_issue s i) i.id i.repository = true := by
      rw [he]; exact is_issue_tracked_append_self s i.id i.repository i.createdAt
    have he2 : add_issue (add_issue s i) i = add_issue s i :=
      add_issue_of_tracked (add_issue s i) i htr
    refine ⟨?_, he2, htr, by rw [he2]; exact htr⟩
    rw [he2, he]
    simp only [keyCount, List.filter_append, List.length_append]
    have h0f : keyCount s i.id i.repository = 0 := h0
    simp only [keyCount] at h0f
    rw [h0f]
    simp
  · have he : add_issue s i = s := add_issue_of_tracked s i ht
    have he2 : add_issue (add_issue s i) i = add_issue s i := by rw [he, he]
    have h1 : 1 ≤ keyCount s i.id i.repository :=
      keyCount_pos_of_tracked s i.id i.repository ht
    refine ⟨?_, he2, by rw [he]; exact ht, by rw [he2, he]; exact ht⟩
    rw [he2, he]
    omega

/-- C5 witness: inserting the same issue twice into the empty store leaves
exactly one row and the key reads as tracked after either call. -/
theorem add_issue_idempotent_witness :
    keyCount
      (add_issue
        (add_issue []
          (Issue.mk 7 1 "t".toList "u".toList "c".toList "o/r" "a".toList []))
        (Issue.mk 7 1 "t".toList "u".toList "c".toList "o/r" "a".toList []))
      7 "o/r" = 1 :=
  (add_issue_idempotent []
    (Issue.mk 7 1 "t".toList "u".toList "c".toList "o/r" "a".toList [])
    (by decide)).1

/-- C1: dedup correctness of check_repository.  At every point of the
iteration a tracked item is skipped outright (no notification attempt, no
record, no count), an untracked item gets exactly one notification
attempt, and it is recorded and counted if and only if the send reports
success; consequently on a fetch result [X, Y] with X tracked and Y
untracked whose send succeeds, exactly one notification (for Y) is
attempted, the count is 1, and exactly one new record (Y's) is created. -/
theorem check_repository_dedup (store : Store) (sendOk : Issue → Bool) (X Y : Issue)
    (hX : is_issue_tracked store X.id X.repository = true)
    (hY : is_issue_tracked store Y.id Y.repository = false)
    (hsend : sendOk Y = true) :
    (∀ (st : CheckState) (i : Issue),
        is_issue_tracked st.store i.id i.repository = true →
        checkStep sendOk st i = st) ∧
    (∀ (st : CheckState) (i : Issue),
        is_issue_tracked st.store i.id i.repository = false →
        (checkStep sendOk st i).notified = st.notified ++ [i] ∧
        (sendOk i = true →
          (checkStep sendOk st i).store = add_issue st.store i ∧
          (checkStep sendOk st i).newCount = st.newCount + 1) ∧
        (sendOk i = false →
          (checkStep sendOk st i).store = st.store ∧
          (checkStep sendOk st i).newCount = st.newCount)) ∧
    (check_repository sendOk store [X, Y]).notified = [Y] ∧
    (check_repository sendOk store [X, Y]).newCount = 1 ∧
    (check_repository sendOk store [X, Y]).store =
      store ++ [⟨Y.id, Y.repository, Y.createdAt⟩] := by
  have hstep : ∀ (st : CheckState) (i : Issue),
      is_issue_tracked st.store i.id i.repository = true →
      checkStep sendOk st i = st := by
    intro st i h
    simp [checkStep, h]
  have hrun : check_repository sendOk store [X, Y] =
      ⟨add_issue store Y, 1, [Y]⟩ := by
    simp only [check_repository, List.foldl_cons, List.foldl_nil]
    rw [hstep ⟨store, 0, []⟩ X hX]
    simp [checkStep, hY, hsend]
  refine ⟨hstep, ?_, ?_, ?_, ?_⟩
  · intro st i h
    refine ⟨?_, ?_, ?_⟩
    · rcases hs : sendOk i with _ | _ <;> simp [checkStep, h, hs]
    · intro hs; simp [checkStep, h, hs]
    · intro hs; simp [checkStep, h, hs]
  · rw [hrun]
  · rw [hrun]
  · rw [hrun, add_issue_of_not_tracked store Y hY]

/-- C1 witness: with item 1 already tracked and item 2 untracked, the run
over the two fetched items notifies exactly once and counts one new
issue. -/
theorem check_repository_dedup_witness :
    (check_repository (fun _ => true)
      [⟨1, "o/r", "c".toList⟩]
      [Issue.mk 1 1 "t".toList "u".toList "c".toList "o/r" "a".toList [],
       Issue.mk 2 2 "t".toList "u".toList "c".toList "o/r" "a".toList []]).newCount = 1 :=
  (check_repository_dedup [⟨1, "o/r", "c".toList⟩] (fun _ => true)
    (Issue.mk 1 1 "t".toList "u".toList "c".toList "o/r" "a".toList [])
    (Issue.mk 2 2 "t".toList "u".toList "c".toList "o/r" "a".toList [])
    (by decide) (by decide) rfl).2.2.2.1

/-- C7: fault isolation.  A collection whose processing raises contributes
zero new items and leaves the store untouched, and the cycle continues
with the remaining collections unaffected; in particular when collection
A raises and collection B succeeds with one untracked item whose send
succeeds, the cycle returns a new-item count of 1. -/
theorem check_cycle_fault_isolation (store : Store) (sendOk : Issue → Bool) (y : Issue)
    (hy : is_issue_tracked store y.id y.repository = false)
    (hs : sendOk y = true) :
    (∀ (s : Store), check_repository_safe sendOk s RepoOutcome.raises = (0, s)) ∧
    (∀ (s : Store) (outs : List RepoOutcome),
        check_all_repositories sendOk s (RepoOutcome.raises :: outs) =
          check_all_repositories sendOk s outs) ∧
    check_all_repositories sendOk store
        [RepoOutcome.raises, RepoOutcome.fetched [y]] =
      (1, store ++ [⟨y.id, y.repository, y.createdAt⟩]) := by
  refine ⟨fun s => rfl, fun s outs => rfl, ?_⟩
  simp only [check_all_repositories, List.foldl_cons, List.foldl_nil,
    check_repository_safe, check_repository, checkStep, hy, hs]
  simp [add_issue_of_not_tracked store y hy]

/-- C7 witness: a raising collection followed by a successful collection
with one new item yields a cycle count of 1. -/
theorem check_cycle_fault_isolation_witness :
    check_all_repositories (fun _ => true) []
        [RepoOutcome.raises,
         RepoOutcome.fetched
           [Issue.mk 2 2 "t".toList "u".toList "c".toList "o/r" "a".toList []]] =
      (1, [⟨2, "o/r", "c".toList⟩]) :=
  (check_cycle_fault_isolation [] (fun _ => true)
    (Issue.mk 2 2 "t".toList "u".toList "c".toList "o/r" "a".toList [])
    (by decide) rfl).2.2

/-- C6: get_recent_issues returns the empty sequence — and, being a total
dispatch over every network outcome, never raises — on any non-200 status
(including the 403 rate-limit and 404 not-found branches), on a request
timeout, and on any transport exception; only a 200 response is parsed
into items (pull requests excluded). -/
theorem get_recent_issues_failures (repository : String) (status : Nat)
    (body : List IssueData) (h : status ≠ 200) :
    get_recent_issues repository (NetResult.response status body) = [] ∧
    get_recent_issues repository NetResult.timeout = [] ∧
    get_recent_issues repository NetResult.exn = [] ∧
    get_recent_issues repository (NetResult.response 200 body) =
      (body.filter (fun d => !d.pullRequest)).map (fun d => parse_issue d repository) := by
  refine ⟨?_, rfl, rfl, by simp [get_recent_issues]⟩
  simp only [get_recent_issues, if_neg h]
  split <;> simp

/-- C6 witness: a 403 rate-limit response yields the empty list. -/
theorem get_recent_issues_failures_witness :
    get_recent_issues "o/r" (NetResult.response 403 []) = [] :=
  (get_recent_issues_failures "o/r" 403 [] (by decide)).1

/-- C9 counterexample: a label entry that is an object with a missing name
field is not dropped — lbl.get('name', '') defaults it to the empty
string, which does appear among the parsed item's labels, so the claim
that such an entry does not appear is false on this input. -/
theorem parse_labels_missing_name_appears :
    parse_labels [LabelEntry.obj NameField.absent] = [LabelVal.str []] ∧
    (parse_issue
        (IssueData.mk 1 2 "t".toList "u".toList "c".toList "a".toList
          [LabelEntry.obj NameField.absent] false) "o/r").labels ≠ [] := by
  exact ⟨rfl, by decide⟩

/-- C9 (amended): parsing is defensive per entry, never failing the item:
a label entry that is not an object is dropped and does not appear among
the item's labels; an object entry whose name field is missing appears as
the default empty-string label; an object entry whose name value is of a
non-string type appears as that raw value; a well-formed name appears
unchanged; and in every case the remaining fields of the item are parsed
successfully. -/
theorem parse_labels_defensive :
    (∀ es : List LabelEntry,
        parse_labels (LabelEntry.nonObj :: es) = parse_labels es) ∧
    (∀ es : List LabelEntry,
        parse_labels (LabelEntry.obj NameField.absent :: es) =
          LabelVal.str [] :: parse_labels es) ∧
    (∀ (es : List LabelEntry) (s : List Char),
        parse_labels (LabelEntry.obj (NameField.str s) :: es) =
          LabelVal.str s :: parse_labels es) ∧
    (∀ es : List LabelEntry,
        parse_labels (LabelEntry.obj NameField.malformed :: es) =
          LabelVal.nonString :: parse_labels es) ∧
    (∀ (d : IssueData) (repo : String),
        (parse_issue d repo).id = d.id ∧
        (parse_issue d repo).number = d.number ∧
        (parse_issue d repo).title = d.title ∧
        (parse_issue d repo).url = d.htmlUrl ∧
        (parse_issue d repo).createdAt = d.createdAt ∧
        (parse_issue d repo).repository = repo ∧
        (parse_issue d repo).author = d.userLogin ∧
        (parse_issue d repo).labels = parse_labels d.labels) :=
  ⟨fun _ => rfl, fun _ => rfl, fun _ _ => rfl, fun _ => rfl,
   fun _ _ => ⟨rfl, rfl, rfl, rfl, rfl, rfl, rfl, rfl⟩⟩

theorem batch_loop_ne_nil (batchSize : Nat) (l : List String) (h : l ≠ []) :
    (batch_loop batchSize l).1 ≠ [] := by
  match l, h with
  | r :: rs, _ =>
    rw [batch_loop]
    simp

theorem batch_loop_flatten (batchSize : Nat) :
    ∀ (n : Nat) (l : List String), l.length ≤ n →
      ((batch_loop batchSize l).1).flatten = l := by
  intro n
  induction n with
  | zero =>
    intro l hl
    have h : l = [] := List.length_eq_zero.mp (Nat.le_zero.mp hl)
    subst h
    simp [batch_loop]
  | succ n ih =>
    intro l hl
    match l, hl with
    | [], _ => simp [batch_loop]
    | r :: rs, hl =>
      rw [batch_loop]
      simp only [List.flatten_cons]
      rw [ih (List.drop (max 1 batchSize) (r :: rs))
        (by
          have hm : 1 ≤ max 1 batchSize := le_max_left 1 batchSize
          simp only [List.length_drop, List.length_cons] at hl ⊢
          omega)]
      exact List.take_append_drop (max 1 batchSize) (r :: rs)

theorem batch_loop_delay_count (batchSize : Nat) :
    ∀ (n : Nat) (l : List String), l.length ≤ n →
      (batch_loop batchSize l).2 = (batch_loop batchSize l).1.length - 1 := by
  intro n
  induction n with
  | zero =>
    intro l hl
    have h : l = [] := List.length_eq_zero.mp (Nat.le_zero.mp hl)
    subst h
    simp [batch_loop]
  | succ n ih =>
    intro l hl
    match l, hl with
    | [], _ => simp [batch_loop]
    | r :: rs, hl =>
      by_cases hrest : (r :: rs).drop (max 1 batchSize) = []
      · rw [batch_loop]
        simp [hrest, batch_loop]
      · have hih := ih ((r :: rs).drop (max 1 batchSize))
          (by
            have hm : 1 ≤ max 1 batchSize := le_max_left 1 batchSize
            simp only [List.length_drop, List.length_cons] at hl ⊢
            omega)
        have hne : (batch_loop batchSize ((r :: rs).drop (max 1 batchSize))).1 ≠ [] :=
          batch_loop_ne_nil batchSize ((r :: rs).drop (max 1 batchSize)) hrest
        have hpos : 1 ≤ (batch_loop batchSize ((r :: rs).drop (max 1 batchSize))).1.length :=
          List.length_pos.mpr hne
        rw [batch_loop]
        simp only [List.length_cons, if_neg hrest]
        omega

/-- C8: the cycle partitions the configured collection list in original
order into fixed-size batches (their concatenation restores the list
exactly), and the inter-batch delay runs exactly once per gap between
consecutive batches — one less than the number of batches, never after
the last; for 7 collections and batch size 3 this gives exactly 3 batches
of sizes 3, 3 and 1 with the delay applied exactly twice. -/
theorem batch_partition_pacing (repos : List String) (h : repos.length = 7) :
    (∀ (bs : Nat) (l : List String), ((batch_loop bs l).1).flatten = l) ∧
    (∀ (bs : Nat) (l : List String),
        (batch_loop bs l).2 = (batch_loop bs l).1.length - 1) ∧
    (batch_loop 3 repos).1.map List.length = [3, 3, 1] ∧
    (batch_loop 3 repos).1.length = 3 ∧
    (batch_loop 3 repos).2 = 2 := by
  have hflat : ∀ (bs : Nat) (l : List String), ((batch_loop bs l).1).flatten = l :=
    fun bs l => batch_loop_flatten bs l.length l (le_refl _)
  have hdel : ∀ (bs : Nat) (l : List String),
      (batch_loop bs l).2 = (batch_loop bs l).1.length - 1 :=
    fun bs l => batch_loop_delay_count bs l.length l (le_refl _)
  refine ⟨hflat, hdel, ?_⟩
  rcases repos with _ | ⟨a, _ | ⟨b, _ | ⟨c, _ | ⟨d, _ | ⟨e, _ | ⟨f, _ | ⟨g, _ | ⟨x, t⟩⟩⟩⟩⟩⟩⟩⟩ <;>
    simp only [List.length_cons, List.length_nil] at h <;> try omega
  simp [batch_loop]

/-- C8 witness: seven concrete collections with batch size 3 give batch
sizes [3, 3, 1] and exactly two inter-batch delays. -/
theorem batch_partition_pacing_witness :
    (batch_loop 3 ["a", "b", "c", "d", "e", "f", "g"]).1.map List.length = [3, 3, 1] ∧
    (batch_loop 3 ["a", "b", "c", "d", "e", "f", "g"]).2 = 2 :=
  ⟨(batch_partition_pacing ["a", "b", "c", "d", "e", "f", "g"] (by decide)).2.2.1,
   (batch_partition_pacing ["a", "b", "c", "d", "e", "f", "g"] (by decide)).2.2.2.2⟩
